import Mathlib

/-!
Verification of the authentication and access-control core of the
fastapi-template repository, as a shallow embedding in Lean 4.

Conventions of the embedding:
- machine integers are Nat; clock instants are Nat seconds;
- the database session is a List User; adding a fresh row appends,
  updating an attached row rewrites every stored row with the same id;
- fallible endpoints return Except HTTPException;
- the JSON web token library (jose) is modelled abstractly: an encoded
  token is its payload together with the signing key, and signature
  verification is equality of keys;
- bcrypt is modelled abstractly by an injective tagging function, so that
  verify(p, h) holds exactly when h was produced by hashing p, which is
  the contract the Password Hasher component relies on;
- code paths that reference ORM attributes the declared model does not map
  are modelled as Except PyError values, the store coming back unchanged.
-/

namespace FastapiTemplate

/-- Modelled from the spec: the closed role enumeration USER, ADMIN,
SUPERADMIN (app/db/models/enums.py is referenced by the sources but is not
itself among them); the string values follow the lowercase convention the
spec implies for role names. -/
inductive UserRole where
  | USER
  | ADMIN
  | SUPERADMIN
deriving DecidableEq, Repr

/-- Modelled from the spec: the string value of a role member, used by the
sources as role.value when embedding a role into a token or a message. -/
def UserRole.value : UserRole → String
  | .USER => "user"
  | .ADMIN => "admin"
  | .SUPERADMIN => "superadmin"

/-- The User model of src/app/db/models/user.py, restricted to the declared
columns the authentication core reads or writes (phone, bio, timezone,
language and the server-side creation/update timestamps are carried by no
operation modelled here). The model declares no oauth_provider or oauth_id
column; the code paths of user_crud.py that reference those names are
modelled below together with the errors they raise. Timestamps are Nat. -/
structure User where
  id : Nat
  username : String
  email : String
  hashed_password : Option String
  first_name : Option String
  last_name : Option String
  avatar_url : Option String
  is_active : Bool
  role : UserRole
  two_fa_enabled : Bool
  email_verified : Bool
  last_login_at : Option Nat
deriving DecidableEq, Repr

/-- fastapi.HTTPException as raised by the sources: a status code and a
detail message. -/
structure HTTPException where
  status_code : Nat
  detail : String
deriving DecidableEq, Repr

/-- src/app/core/config.py: ACCESS_TOKEN_EXPIRE_MINUTES = 30. -/
def ACCESS_TOKEN_EXPIRE_MINUTES : Nat := 30

/-- src/app/core/config.py: REFRESH_TOKEN_EXPIRE_DAYS = 7. -/
def REFRESH_TOKEN_EXPIRE_DAYS : Nat := 7

/-- src/app/core/config.py: RATE_LIMIT_PER_MINUTE = 60. -/
def RATE_LIMIT_PER_MINUTE : Nat := 60

/-- src/app/core/security.py hash_password: bcrypt is an external library;
it is modelled by an injective tag so that verification succeeds exactly on
the hashed plaintext, the contract of the Password Hasher. -/
def hash_password (password : String) : String :=
  "bcrypt-2b-12-" ++ password

/-- src/app/core/security.py verify_password, under the same model of
bcrypt: checkpw succeeds exactly when the stored digest came from the
offered plaintext. -/
def verify_password (plain_password : String) (hashed_password : String) : Bool :=
  hash_password plain_password == hashed_password

/-- The claims the routers place into a token before the time-stamping:
subject (the numeric user id rendered as the sub claim), username and role
value. The sub claim is optional because decode inspects its absence. -/
structure TokenData where
  sub : Option Nat
  username : String
  role : String
deriving DecidableEq, Repr

/-- The payload of an issued token after create_access_token or
create_refresh_token has added the expiry instant and the token kind. -/
structure TokenPayload where
  data : TokenData
  exp : Nat
  token_type : String
deriving DecidableEq, Repr

/-- An encoded JWT, modelled as its payload plus the key it was signed
with; the signature of a presented token verifies against a secret exactly
when the two keys coincide. -/
structure EncodedJWT where
  payload : TokenPayload
  key : String
deriving DecidableEq, Repr

/-- src/app/core/security.py create_access_token: copy the data, add the
expiry (now plus the supplied delta in seconds, or the configured minutes)
and the kind access, and sign with the secret. -/
def create_access_token (secret : String) (data : TokenData) (now : Nat)
    (expires_delta : Option Nat) : EncodedJWT :=
  let expire :=
    match expires_delta with
    | some d => now + d
    | none => now + ACCESS_TOKEN_EXPIRE_MINUTES * 60
  { payload := { data := data, exp := expire, token_type := "access" }, key := secret }

/-- src/app/core/security.py create_refresh_token: as the access token but
with the kind refresh and the day-scaled default lifetime. -/
def create_refresh_token (secret : String) (data : TokenData) (now : Nat)
    (expires_delta : Option Nat) : EncodedJWT :=
  let expire :=
    match expires_delta with
    | some d => now + d
    | none => now + REFRESH_TOKEN_EXPIRE_DAYS * 24 * 60 * 60
  { payload := { data := data, exp := expire, token_type := "refresh" }, key := secret }

/-- src/app/core/security.py decode_token: jose raises JWTError on a
signature mismatch and ExpiredSignatureError when the exp claim is strictly
below the current instant; both are caught and mapped to the uniform 401.
Under the token model, the signature verifies when the keys coincide. -/
def decode_token (secret : String) (now : Nat) (token : EncodedJWT) :
    Except HTTPException TokenPayload :=
  if token.key = secret then
    if token.payload.exp < now then
      .error { status_code := 401, detail := "Could not validate credentials" }
    else
      .ok token.payload
  else
    .error { status_code := 401, detail := "Could not validate credentials" }

/-- C3: issuing an access token over claims carrying subject, username and
role, then verifying it with the same secret at any instant strictly before
the expiry instant, returns the payload whose claims equal the input (and
kind access); verifying at any instant strictly after the expiry instant
fails with the uniform invalid-token outcome instead of returning claims. -/
theorem token_issue_verify_roundtrip (secret : String) (data : TokenData)
    (t0 t : Nat) (expires_delta : Option Nat) :
    (t < (create_access_token secret data t0 expires_delta).payload.exp →
      decode_token secret t (create_access_token secret data t0 expires_delta) =
        .ok (create_access_token secret data t0 expires_delta).payload ∧
      (create_access_token secret data t0 expires_delta).payload.data = data) ∧
    ((create_access_token secret data t0 expires_delta).payload.exp < t →
      decode_token secret t (create_access_token secret data t0 expires_delta) =
        .error { status_code := 401, detail := "Could not validate credentials" }) := by
  constructor
  · intro hlt
    simp only [create_access_token] at hlt
    refine ⟨?_, rfl⟩
    simp [decode_token, create_access_token]
    omega
  · intro hgt
    simp only [create_access_token] at hgt
    simp [decode_token, create_access_token]
    omega

/-- Witness for C3 at a concrete secret, claims and clock: issued at 0,
verified at 100 the claims come back, and verified at 2000 (the default
expiry being 1800) verification fails. -/
theorem token_issue_verify_roundtrip_witness :
    (100 < (create_access_token "k" ⟨some 7, "alice", "user"⟩ 0 none).payload.exp ∧
      decode_token "k" 100 (create_access_token "k" ⟨some 7, "alice", "user"⟩ 0 none) =
        .ok (create_access_token "k" ⟨some 7, "alice", "user"⟩ 0 none).payload ∧
      (create_access_token "k" ⟨some 7, "alice", "user"⟩ 0 none).payload.data =
        ⟨some 7, "alice", "user"⟩) ∧
    ((create_access_token "k" ⟨some 7, "alice", "user"⟩ 0 none).payload.exp < 2000 ∧
      decode_token "k" 2000 (create_access_token "k" ⟨some 7, "alice", "user"⟩ 0 none) =
        .error { status_code := 401, detail := "Could not validate credentials" }) := by
  have h := token_issue_verify_roundtrip "k" ⟨some 7, "alice", "user"⟩ 0 100 none
  have h2 := token_issue_verify_roundtrip "k" ⟨some 7, "alice", "user"⟩ 0 2000 none
  refine ⟨⟨by decide, (h.1 (by decide)).1, (h.1 (by decide)).2⟩,
          ⟨by decide, h2.2 (by decide)⟩⟩

/-- Modelled from the spec: the Credential Store get_by_id lookup, reached
by the gate as user_crud.get (the generic CRUDBase in app/db/utils/crud.py
is referenced by the sources but is not itself among them): the stored
principal whose primary key equals the given id, if any. -/
def user_crud_get (db : List User) (id : Nat) : Option User :=
  db.find? (fun u => u.id == id)

/-- src/app/db/utils/user_crud.py get_by_username: the stored principal
with the given username, if any. -/
def get_by_username (db : List User) (username : String) : Option User :=
  db.find? (fun u => u.username == username)

/-- src/app/db/utils/user_crud.py get_by_email: the stored principal with
the given email, if any. -/
def get_by_email (db : List User) (email : String) : Option User :=
  db.find? (fun u => u.email == email)

/-- src/app/db/utils/user_crud.py authenticate: try the identifier as a
username, then as an email; an absent user and a failed password
verification both yield None. On a stored row with a null hash the source
would raise inside verify_password; no such row exists because the column
is declared NOT NULL, and the model makes that branch fail. -/
def authenticate (db : List User) (username_or_email : String) (password : String) :
    Option User :=
  let user :=
    match get_by_username db username_or_email with
    | some u => some u
    | none => get_by_email db username_or_email
  match user with
  | none => none
  | some u =>
    match u.hashed_password with
    | none => none
    | some h => if verify_password password h then some u else none

/-- src/app/db/utils/user_crud.py is_active. -/
def is_active (user : User) : Bool :=
  user.is_active

/-- src/app/db/utils/user_crud.py has_role: the user has exactly the given
role. -/
def has_role (user : User) (role : UserRole) : Bool :=
  user.role == role

/-- The effect of db.add on an already-stored object followed by
flush/commit: every stored row carrying the same primary key takes the new
column values; nothing else changes. -/
def db_update (db : List User) (u : User) : List User :=
  db.map (fun x => if x.id == u.id then u else x)

/-- The three reply shapes of the login endpoint. -/
inductive LoginResult where
  | failure (e : HTTPException)
  | requires_2fa (user_id : Nat)
  | tokens (access : EncodedJWT) (refresh : EncodedJWT)
deriving DecidableEq, Repr

/-- src/app/api/routers/auth.py login, state-passing on the stored rows.
Failed authentication yields the uniform 401 message; an account with a
false active flag yields the distinct 400 Inactive user; with two-factor
enabled the reply names the user id and asks for the code; otherwise
last_login_at is stamped and the token pair is returned (the issuance done
by user_service.authenticate_user, not among the sources, is modelled from
the spec: the Token Service issues the access and refresh pair for the
authenticated principal). -/
def login (secret : String) (db : List User) (username_or_email : String)
    (password : String) (now : Nat) : LoginResult × List User :=
  match authenticate db username_or_email password with
  | none =>
    (.failure { status_code := 401, detail := "Incorrect username/email or password" }, db)
  | some user =>
    if !(is_active user) then
      (.failure { status_code := 400, detail := "Inactive user" }, db)
    else if user.two_fa_enabled then
      (.requires_2fa user.id, db)
    else
      let stamped := { user with last_login_at := some now }
      let data : TokenData :=
        { sub := some user.id, username := user.username, role := user.role.value }
      (.tokens (create_access_token secret data now none)
        (create_refresh_token secret data now none),
       db_update db stamped)

/-- src/app/api/dependencies/auth.py get_current_user: decode the bearer
token, read the sub claim, and load the principal by id. The rejection of
a request carrying no bearer credential happens inside the HTTPBearer
dependency of the web framework, outside the sources; that entry step is
modelled from the spec: a missing token fails Unauthenticated. The sub
claim holds the numeric user id (the routers store str(user.id) and this
gate reads it back through int). -/
def get_current_user (secret : String) (now : Nat) (credentials : Option EncodedJWT)
    (db : List User) : Except HTTPException User :=
  match credentials with
  | none => .error { status_code := 401, detail := "Not authenticated" }
  | some token =>
    match decode_token secret now token with
    | .error e => .error e
    | .ok payload =>
      match payload.data.sub with
      | none => .error { status_code := 401, detail := "Could not validate credentials" }
      | some user_id =>
        match user_crud_get db user_id with
        | none => .error { status_code := 404, detail := "User not found" }
        | some user => .ok user

/-- src/app/api/dependencies/auth.py get_current_active_user: reject a
loaded principal whose active flag is false. -/
def get_current_active_user (secret : String) (now : Nat)
    (credentials : Option EncodedJWT) (db : List User) : Except HTTPException User :=
  match get_current_user secret now credentials db with
  | .error e => .error e
  | .ok current_user =>
    if !(is_active current_user) then
      .error { status_code := 400, detail := "Inactive user" }
    else
      .ok current_user

/-- src/app/api/dependencies/auth.py require_role: the dependency produced
by the factory for an exact required role, composed over the active-user
gate. -/
def require_role (required_role : UserRole) (secret : String) (now : Nat)
    (credentials : Option EncodedJWT) (db : List User) : Except HTTPException User :=
  match get_current_active_user secret now credentials db with
  | .error e => .error e
  | .ok current_user =>
    if !(has_role current_user required_role) then
      .error { status_code := 403,
               detail := "Insufficient permissions. " ++ required_role.value ++ " role required." }
    else
      .ok current_user

/-- src/app/api/dependencies/auth.py require_any_role: the dependency
produced by the factory for a set of acceptable roles, composed over the
active-user gate. -/
def require_any_role (roles : List UserRole) (secret : String) (now : Nat)
    (credentials : Option EncodedJWT) (db : List User) : Except HTTPException User :=
  match get_current_active_user secret now credentials db with
  | .error e => .error e
  | .ok current_user =>
    if roles.any (fun role => has_role current_user role) then
      .ok current_user
    else
      .error { status_code := 403,
               detail := "Insufficient permissions. One of these roles required: " ++
                 String.intercalate ", " (roles.map UserRole.value) }

/-- Fixture: an active USER-role principal with a password. -/
def uAlice : User :=
  { id := 1, username := "alice", email := "alice@example.com",
    hashed_password := some (hash_password "alicepw"),
    first_name := none, last_name := none, avatar_url := none,
    is_active := true, role := UserRole.USER,
    two_fa_enabled := false, email_verified := true,
    last_login_at := none }

/-- Fixture: a principal whose active flag is false. -/
def uBob : User :=
  { id := 2, username := "bob", email := "bob@example.com",
    hashed_password := some (hash_password "bobpw"),
    first_name := none, last_name := none, avatar_url := none,
    is_active := false, role := UserRole.USER,
    two_fa_enabled := false, email_verified := true,
    last_login_at := none }

/-- Fixture: an active ADMIN-role principal. -/
def uCarol : User :=
  { id := 3, username := "carol", email := "carol@example.com",
    hashed_password := some (hash_password "carolpw"),
    first_name := none, last_name := none, avatar_url := none,
    is_active := true, role := UserRole.ADMIN,
    two_fa_enabled := false, email_verified := true,
    last_login_at := none }

/-- Fixture: a store holding the three principals above. -/
def dbMain : List User :=
  [uAlice, uBob, uCarol]

/-- Fixture: a well-signed access token for uAlice, issued at 100. -/
def tokAlice : EncodedJWT :=
  create_access_token "k" { sub := some 1, username := "alice", role := "user" } 100 none

/-- Fixture: a well-signed access token for uBob, issued at 100. -/
def tokBob : EncodedJWT :=
  create_access_token "k" { sub := some 2, username := "bob", role := "user" } 100 none

/-- Fixture: a well-signed access token for uCarol, issued at 100. -/
def tokCarol : EncodedJWT :=
  create_access_token "k" { sub := some 3, username := "carol", role := "admin" } 100 none

/-- Fixture: a well-signed access token whose subject matches no stored
principal. -/
def tokGhost : EncodedJWT :=
  create_access_token "k" { sub := some 99, username := "ghost", role := "user" } 100 none

/-- Fixture: a well-signed access token carrying no sub claim. -/
def tokNoSub : EncodedJWT :=
  create_access_token "k" { sub := none, username := "alice", role := "user" } 100 none

/-- Fixture: a token signed with the wrong key, so its signature fails to
verify against the configured secret. -/
def tokForged : EncodedJWT :=
  { payload := { data := { sub := some 1, username := "alice", role := "user" },
                 exp := 1900, token_type := "access" },
    key := "evil" }

/-- C1: the authorization gate evaluates its checks in a fixed order with
a distinct first-failure outcome. A missing bearer credential and a token
failing decode produce the 401 Unauthenticated outcome before, and
independent of, any principal lookup (likewise a decoded payload carrying
no sub claim); a decodable token whose subject matches no stored principal
fails with 404 User not found; a loaded principal whose active flag is
false fails with 400 Inactive user even though the signature and expiry
verified; only an active principal reaches the role check, which fails
with 403 naming the required roles exactly when the principal carries none
of them; and the role stages pass every earlier failure through
unchanged. -/
theorem auth_gate_ordered (secret : String) (now : Nat) :
    (∀ db : List User,
      get_current_user secret now none db =
        .error { status_code := 401, detail := "Not authenticated" }) ∧
    (∀ (token : EncodedJWT) (e : HTTPException),
      decode_token secret now token = .error e →
        (∀ db : List User, get_current_user secret now (some token) db = .error e) ∧
        e = { status_code := 401, detail := "Could not validate credentials" }) ∧
    (∀ (token : EncodedJWT) (payload : TokenPayload),
      decode_token secret now token = .ok payload → payload.data.sub = none →
        ∀ db : List User,
          get_current_user secret now (some token) db =
            .error { status_code := 401, detail := "Could not validate credentials" }) ∧
    (∀ (token : EncodedJWT) (payload : TokenPayload) (uid : Nat) (db : List User),
      decode_token secret now token = .ok payload → payload.data.sub = some uid →
      user_crud_get db uid = none →
        get_current_user secret now (some token) db =
          .error { status_code := 404, detail := "User not found" }) ∧
    (∀ (token : EncodedJWT) (user : User) (db : List User),
      get_current_user secret now (some token) db = .ok user → user.is_active = false →
        get_current_active_user secret now (some token) db =
          .error { status_code := 400, detail := "Inactive user" }) ∧
    (∀ (cred : Option EncodedJWT) (user : User) (db : List User),
      get_current_active_user secret now cred db = .ok user →
        user.is_active = true ∧
        (∀ roles : List UserRole,
          require_any_role roles secret now cred db =
            if roles.any (fun role => has_role user role) then .ok user
            else .error { status_code := 403,
                          detail := "Insufficient permissions. One of these roles required: " ++
                            String.intercalate ", " (roles.map UserRole.value) })) ∧
    (∀ (cred : Option EncodedJWT) (e : HTTPException) (roles : List UserRole)
        (required : UserRole) (db : List User),
      get_current_active_user secret now cred db = .error e →
        require_any_role roles secret now cred db = .error e ∧
        require_role required secret now cred db = .error e) := by
  refine ⟨fun db => rfl, ?_, ?_, ?_, ?_, ?_, ?_⟩
  · intro token e hdec
    have he : e = { status_code := 401, detail := "Could not validate credentials" } := by
      unfold decode_token at hdec
      split at hdec
      · split at hdec
        · cases hdec; rfl
        · cases hdec
      · cases hdec; rfl
    refine ⟨fun db => ?_, he⟩
    simp only [get_current_user, hdec]
  · intro token payload hdec hsub db
    simp only [get_current_user, hdec, hsub]
  · intro token payload uid db hdec hsub hget
    simp only [get_current_user, hdec, hsub, hget]
  · intro token user db hok hinact
    simp only [get_current_active_user, hok, is_active, hinact]
    rfl
  · intro cred user db hok
    have hact : user.is_active = true := by
      unfold get_current_active_user at hok
      split at hok
      · cases hok
      · split at hok
        · cases hok
        · rename_i u hu hcond
          cases hok
          simpa [is_active] using hcond
    refine ⟨hact, fun roles => ?_⟩
    simp only [require_any_role, hok]
  · intro cred e roles required db herr
    exact ⟨by simp only [require_any_role, herr], by simp only [require_role, herr]⟩

/-- Witness for C1: concrete runs of the gate over the fixture store at
instant 200 hit each stage. No credential and a forged signature give the
401 outcomes with no lookup, a token with an unknown subject gives 404, a
valid token for the inactive uBob gives 400, the active USER-role uAlice
reaches the role stage and fails it with 403 naming the admin role, and a
role-gated call with a forged token reports the earlier 401 unchanged. -/
theorem auth_gate_ordered_witness :
    (get_current_user "k" 200 none dbMain =
      .error { status_code := 401, detail := "Not authenticated" }) ∧
    (get_current_user "k" 200 (some tokForged) dbMain =
      .error { status_code := 401, detail := "Could not validate credentials" }) ∧
    (get_current_user "k" 200 (some tokNoSub) dbMain =
      .error { status_code := 401, detail := "Could not validate credentials" }) ∧
    (get_current_user "k" 200 (some tokGhost) dbMain =
      .error { status_code := 404, detail := "User not found" }) ∧
    (get_current_active_user "k" 200 (some tokBob) dbMain =
      .error { status_code := 400, detail := "Inactive user" }) ∧
    (uAlice.is_active = true ∧
      require_any_role [UserRole.ADMIN] "k" 200 (some tokAlice) dbMain =
        .error { status_code := 403,
                 detail := "Insufficient permissions. One of these roles required: admin" }) ∧
    (require_any_role [UserRole.ADMIN] "k" 200 (some tokForged) dbMain =
      .error { status_code := 401, detail := "Could not validate credentials" }) := by
  have h := auth_gate_ordered "k" 200
  refine ⟨h.1 dbMain, ?_, ?_, ?_, ?_, ?_, ?_⟩
  · exact (h.2.1 tokForged { status_code := 401, detail := "Could not validate credentials" }
      (by rfl)).1 dbMain
  · exact h.2.2.1 tokNoSub tokNoSub.payload (by rfl) (by decide) dbMain
  · exact h.2.2.2.1 tokGhost tokGhost.payload 99 dbMain (by rfl) (by decide) (by rfl)
  · exact h.2.2.2.2.1 tokBob uBob dbMain (by rfl) (by decide)
  · have h6 := h.2.2.2.2.2.1 (some tokAlice) uAlice dbMain (by rfl)
    exact ⟨h6.1, by rw [h6.2 [UserRole.ADMIN]]; rfl⟩
  · exact (h.2.2.2.2.2.2 (some tokForged)
      { status_code := 401, detail := "Could not validate credentials" }
      [UserRole.ADMIN] UserRole.ADMIN dbMain (by rfl)).1

/-- C9: over a gate run that reached an active principal, the role checks
compose both ways: a USER-role principal fails an exact ADMIN requirement
with the 403 outcome naming the admin role; an ADMIN-role principal passes
a requirement of any of ADMIN, SUPERADMIN and the principal itself is
returned; and the exact-role check accepts the principal exactly when the
principal role equals the required role (as does the underlying has_role
predicate). -/
theorem role_checks_compose (secret : String) (now : Nat)
    (cred : Option EncodedJWT) (db : List User) (user : User)
    (hok : get_current_active_user secret now cred db = .ok user) :
    (user.role = UserRole.USER →
      require_role UserRole.ADMIN secret now cred db =
        .error { status_code := 403,
                 detail := "Insufficient permissions. " ++ UserRole.ADMIN.value ++
                   " role required." }) ∧
    (user.role = UserRole.ADMIN →
      require_any_role [UserRole.ADMIN, UserRole.SUPERADMIN] secret now cred db =
        .ok user) ∧
    (∀ required : UserRole,
      require_role required secret now cred db = .ok user ↔ user.role = required) ∧
    (∀ required : UserRole, has_role user required = true ↔ user.role = required) := by
  refine ⟨?_, ?_, ?_, ?_⟩
  · intro h
    simp [require_role, hok, has_role, h]
  · intro h
    simp [require_any_role, hok, has_role, h]
  · intro required
    simp only [require_role, hok]
    by_cases hr : user.role = required
    · simp [has_role, hr]
    · simp [has_role, hr]
  · intro required
    simp [has_role]

/-- Witness for C9: through the gate at instant 200, the USER-role uAlice
fails an exact ADMIN requirement with the 403 outcome, the ADMIN-role
uCarol passes the any-of ADMIN, SUPERADMIN requirement, and the exact
check on uCarol reduces to role equality. -/
theorem role_checks_compose_witness :
    (require_role UserRole.ADMIN "k" 200 (some tokAlice) dbMain =
      .error { status_code := 403,
               detail := "Insufficient permissions. admin role required." }) ∧
    (require_any_role [UserRole.ADMIN, UserRole.SUPERADMIN] "k" 200 (some tokCarol) dbMain =
      .ok uCarol) ∧
    (require_role UserRole.ADMIN "k" 200 (some tokCarol) dbMain = .ok uCarol ↔
      uCarol.role = UserRole.ADMIN) := by
  have hA := role_checks_compose "k" 200 (some tokAlice) dbMain uAlice (by rfl)
  have hC := role_checks_compose "k" 200 (some tokCarol) dbMain uCarol (by rfl)
  refine ⟨?_, hC.2.1 rfl, hC.2.2.1 UserRole.ADMIN⟩
  rw [hA.1 rfl]
  rfl

/-- C2 counterexample: with the stored inactive principal uBob, a login
with the correct password fails with the distinct 400 Inactive user while
a login with a wrong password fails with the uniform 401, so two failing
runs differing only in which factor was wrong are distinguishable to the
caller and the claimed uniform failure response is false. -/
theorem login_failure_reveals_account_state :
    (login "k" [uBob] "bob" "bobpw" 0).fst =
      .failure { status_code := 400, detail := "Inactive user" } ∧
    (login "k" [uBob] "bob" "wrongpw" 0).fst =
      .failure { status_code := 401, detail := "Incorrect username/email or password" } ∧
    (login "k" [uBob] "bob" "bobpw" 0).fst ≠ (login "k" [uBob] "bob" "wrongpw" 0).fst := by
  refine ⟨rfl, rfl, ?_⟩
  decide

/-- C2 amended: login failures caused by a failed credential check — the
identifier matching no stored username or email, or a wrong password —
produce one identical outcome across any two such runs, the uniform 401
Incorrect username/email or password, and leave the store unchanged; only
a matched account with a correct password and a false active flag escapes
the uniform message, failing with the distinct 400 Inactive user. -/
theorem login_uniform_on_credential_failure
    (secret1 secret2 : String) (db1 db2 : List User)
    (id1 pw1 id2 pw2 : String) (now1 now2 : Nat)
    (h1 : authenticate db1 id1 pw1 = none)
    (h2 : authenticate db2 id2 pw2 = none) :
    (login secret1 db1 id1 pw1 now1).fst = (login secret2 db2 id2 pw2 now2).fst ∧
    (login secret1 db1 id1 pw1 now1).fst =
      .failure { status_code := 401, detail := "Incorrect username/email or password" } ∧
    (login secret1 db1 id1 pw1 now1).snd = db1 := by
  simp [login, h1, h2]

/-- Witness for the amended C2: a run with an unknown identifier and a run
with a wrong password for the stored uAlice both fail, and the two replies
are the same uniform 401 with the store left unchanged. -/
theorem login_uniform_on_credential_failure_witness :
    authenticate [uAlice] "nobody" "pw" = none ∧
    authenticate [uAlice] "alice" "wrong" = none ∧
    ((login "k" [uAlice] "nobody" "pw" 5).fst = (login "k2" [uAlice] "alice" "wrong" 9).fst ∧
     (login "k" [uAlice] "nobody" "pw" 5).fst =
       .failure { status_code := 401, detail := "Incorrect username/email or password" } ∧
     (login "k" [uAlice] "nobody" "pw" 5).snd = [uAlice]) := by
  refine ⟨by decide, by decide, ?_⟩
  exact login_uniform_on_credential_failure "k" "k2" [uAlice] [uAlice]
    "nobody" "pw" "alice" "wrong" 5 9 (by decide) (by decide)

/-- src/app/middleware/rate_limiting.py: the paths that bypass the rate
limiter entirely. -/
def exempt_paths : List String :=
  ["/", "/api/v1/health", "/api/docs", "/api/redoc"]

/-- Reading a client entry of the per-client window store (a defaultdict
keyed by client identity): an absent key reads as the empty sequence. -/
def lookupReqs (store : List (String × List (Nat × Nat))) (client : String) :
    List (Nat × Nat) :=
  match store.find? (fun kv => kv.fst == client) with
  | some kv => kv.snd
  | none => []

/-- Writing a client entry of the store (dictionary assignment): replace
the binding of the key, or append a fresh binding. -/
def storeReqs (store : List (String × List (Nat × Nat))) (client : String)
    (entries : List (Nat × Nat)) : List (String × List (Nat × Nat)) :=
  match store with
  | [] => [(client, entries)]
  | kv :: rest =>
    if kv.fst == client then (client, entries) :: rest
    else kv :: storeReqs rest client entries

/-- The middleware state of src/app/middleware/rate_limiting.py: the window
store, the configured limit, and the 60-second window set at construction.
Timestamps are Nat seconds (the comparisons of the source are order and
difference comparisons, unchanged by the integral model of the clock). -/
structure RateLimitMiddleware where
  requests : List (String × List (Nat × Nat))
  rate_limit : Nat
  window : Nat
deriving DecidableEq, Repr

/-- The two reply shapes of dispatch: the response of the wrapped handler
decorated with the rate-limit headers, or the 429 rejection carrying the
configured limit and window, built without invoking the handler. -/
inductive DispatchResult where
  | response (body : String) (headers : List (String × String))
  | rate_limited (rate_limit : Nat) (window : Nat)
deriving DecidableEq, Repr

/-- The prune step of dispatch: keep the client entries whose timestamp is
within the window of the current time (age strictly below the window). -/
def prunedEntries (self : RateLimitMiddleware) (client_ip : String)
    (current_time : Nat) : List (Nat × Nat) :=
  (lookupReqs self.requests client_ip).filter
    (fun tc => decide (current_time - tc.fst < self.window))

/-- The count step of dispatch: the sum of the increments of a sequence of
window entries. -/
def sumCounts (entries : List (Nat × Nat)) : Nat :=
  (entries.map (fun tc => tc.snd)).sum

/-- src/app/middleware/rate_limiting.py RateLimitMiddleware.dispatch: when
enabled and the path is not exempt, prune the client entries older than
the window, sum the remaining increments, reject with 429 when the sum has
reached the limit (storing the pruned sequence), and otherwise append a
unit entry, invoke the wrapped handler and decorate its response with the
rate-limit headers (the Remaining header max is the Nat truncation). -/
def dispatch (self : RateLimitMiddleware) (rate_limit_enabled : Bool)
    (client_ip : String) (path : String) (current_time : Nat)
    (call_next : String) : DispatchResult × RateLimitMiddleware :=
  if !rate_limit_enabled then
    (.response call_next [], self)
  else if exempt_paths.contains path then
    (.response call_next [], self)
  else
    let pruned := prunedEntries self client_ip current_time
    let request_count := sumCounts pruned
    if self.rate_limit ≤ request_count then
      (.rate_limited self.rate_limit self.window,
       { self with requests := storeReqs self.requests client_ip pruned })
    else
      (.response call_next
         [("X-RateLimit-Limit", toString self.rate_limit),
          ("X-RateLimit-Remaining", toString (self.rate_limit - request_count - 1)),
          ("X-RateLimit-Reset", toString (current_time + self.window))],
       { self with
         requests := storeReqs self.requests client_ip (pruned ++ [(current_time, 1)]) })

/-- Whether a dispatch reply admitted the request through to the handler. -/
def admitted : DispatchResult → Bool
  | .response _ _ => true
  | .rate_limited _ _ => false

/-- Folding dispatch over a sequence of request instants for one client on
a non-exempt path, collecting the admission verdicts. -/
def runRequests (self : RateLimitMiddleware) (times : List Nat) :
    List Bool × RateLimitMiddleware :=
  match times with
  | [] => ([], self)
  | t :: rest =>
    let step := dispatch self true "203.0.113.7" "/api/v1/users/me" t "handler"
    let tail := runRequests step.snd rest
    (admitted step.fst :: tail.fst, tail.snd)

/-- Reading back the entry just stored for a client. -/
theorem lookupReqs_storeReqs_self (store : List (String × List (Nat × Nat)))
    (client : String) (entries : List (Nat × Nat)) :
    lookupReqs (storeReqs store client entries) client = entries := by
  induction store with
  | nil => simp [storeReqs, lookupReqs]
  | cons kv rest ih =>
    by_cases h : kv.fst = client
    · simp [storeReqs, lookupReqs, h]
    · simp only [storeReqs, lookupReqs] at ih ⊢
      rw [if_neg (by simpa using h)]
      simpa [List.find?, (by simpa using h : (kv.fst == client) = false)] using ih

/-- Storing one client entry leaves every other client entry unchanged. -/
theorem lookupReqs_storeReqs_other (store : List (String × List (Nat × Nat)))
    (client other : String) (entries : List (Nat × Nat)) (h : other ≠ client) :
    lookupReqs (storeReqs store client entries) other = lookupReqs store other := by
  induction store with
  | nil => simp [storeReqs, lookupReqs, List.find?, (by simpa using h.symm : (client == other) = false)]
  | cons kv rest ih =>
    by_cases hk : kv.fst = client
    · simp only [storeReqs]
      rw [if_pos (by simpa using hk)]
      simp [lookupReqs, List.find?, (by simpa using h.symm : (client == other) = false), hk,
        (by simpa using (hk ▸ h.symm : kv.fst ≠ other).symm.symm : (kv.fst == other) = false)]
    · simp only [storeReqs]
      rw [if_neg (by simpa using hk)]
      by_cases ho : kv.fst = other
      · simp [lookupReqs, List.find?, (by simpa using ho : (kv.fst == other) = true)]
      · simp only [lookupReqs, List.find?] at ih ⊢
        rw [(by simpa using ho : (kv.fst == other) = false)]
        exact ih

/-- Fixture: a limiter with limit 3 and window 60 whose client c has three
unit entries inside the window. -/
def rlW : RateLimitMiddleware :=
  { requests := [("c", [(0, 1), (5, 1), (10, 1)])], rate_limit := 3, window := 60 }

/-- C4: for every client identity and non-exempt request with rate
limiting enabled, dispatch prunes the client entries whose timestamp is
older than the window from the current time, sums the remaining
increments, admits the request and appends a unit entry exactly when the
sum is strictly below the limit, and rejects it with the 429 outcome
(storing just the pruned sequence) otherwise; and with limit 3 and window
60 the requests at instants 0, 10, 20 are all admitted, a fourth inside
the window at 21 is rejected, and after the window has elapsed the request
at 81 is admitted again. -/
theorem rate_admission_sliding_window (self : RateLimitMiddleware)
    (client_ip path : String) (current_time : Nat) (call_next : String)
    (hpath : exempt_paths.contains path = false) :
    (sumCounts (prunedEntries self client_ip current_time) < self.rate_limit →
      dispatch self true client_ip path current_time call_next =
        (.response call_next
           [("X-RateLimit-Limit", toString self.rate_limit),
            ("X-RateLimit-Remaining",
              toString (self.rate_limit -
                sumCounts (prunedEntries self client_ip current_time) - 1)),
            ("X-RateLimit-Reset", toString (current_time + self.window))],
         { self with requests := storeReqs self.requests client_ip (prunedEntries self client_ip current_time ++ [(current_time, 1)]) })) ∧
    (self.rate_limit ≤ sumCounts (prunedEntries self client_ip current_time) →
      dispatch self true client_ip path current_time call_next =
        (.rate_limited self.rate_limit self.window,
         { self with requests := storeReqs self.requests client_ip (prunedEntries self client_ip current_time) })) ∧
    (prunedEntries self client_ip current_time =
      (lookupReqs self.requests client_ip).filter
        (fun tc => decide (current_time - tc.fst < self.window))) ∧
    (runRequests { requests := [], rate_limit := 3, window := 60 }
        [0, 10, 20, 21, 81]).fst = [true, true, true, false, true] := by
  refine ⟨?_, ?_, rfl, by decide⟩
  · intro hlt
    simp only [dispatch, Bool.not_true, hpath]
    rw [if_neg (by simp)]
    rw [if_neg (by simp)]
    split
    · rename_i hcond
      exact absurd hcond (by omega)
    · rfl
  · intro hge
    simp only [dispatch, Bool.not_true, hpath]
    rw [if_neg (by simp)]
    rw [if_neg (by simp)]
    split
    · rfl
    · rename_i hcond
      exact absurd hge hcond

/-- Witness for C4: on the fixture limiter, client c with three live unit
entries is rejected at instant 30 with the pruned sequence stored, and is
admitted at instant 70 once all entries aged out, with a fresh unit entry
stored and the handler response decorated; the five-request scenario
replays as admitted, admitted, admitted, rejected, admitted. -/
theorem rate_admission_sliding_window_witness :
    (3 ≤ sumCounts (prunedEntries rlW "c" 30) ∧
      dispatch rlW true "c" "/api/v1/items" 30 "h" =
        (.rate_limited 3 60,
         { requests := [("c", [(0, 1), (5, 1), (10, 1)])], rate_limit := 3, window := 60 })) ∧
    (sumCounts (prunedEntries rlW "c" 70) < 3 ∧
      dispatch rlW true "c" "/api/v1/items" 70 "h" =
        (.response "h"
           [("X-RateLimit-Limit", "3"), ("X-RateLimit-Remaining", "2"),
            ("X-RateLimit-Reset", "130")],
         { requests := [("c", [(70, 1)])], rate_limit := 3, window := 60 })) ∧
    (runRequests { requests := [], rate_limit := 3, window := 60 }
        [0, 10, 20, 21, 81]).fst = [true, true, true, false, true] := by
  have h30 := rate_admission_sliding_window rlW "c" "/api/v1/items" 30 "h" (by decide)
  have h70 := rate_admission_sliding_window rlW "c" "/api/v1/items" 70 "h" (by decide)
  refine ⟨⟨by decide, ?_⟩, ⟨by decide, ?_⟩, h30.2.2.2⟩
  · rw [h30.2.1 (by decide)]
    decide
  · rw [h70.1 (by decide)]
    decide

/-- C10: a rejected request is atomic with respect to the window state: the
reply is the 429 outcome, the stored sequence for the client is exactly its
pruned value (no entry is appended, so the rejection consumes no quota and
cannot extend the limited period), every other client entry is untouched,
and the whole outcome is independent of the wrapped handler, which is
never invoked. -/
theorem rate_limit_reject_atomic (self : RateLimitMiddleware)
    (client_ip path : String) (current_time : Nat) (call_next call_next2 : String)
    (hpath : exempt_paths.contains path = false)
    (hcnt : self.rate_limit ≤ sumCounts (prunedEntries self client_ip current_time)) :
    (dispatch self true client_ip path current_time call_next).fst =
      .rate_limited self.rate_limit self.window ∧
    lookupReqs (dispatch self true client_ip path current_time call_next).snd.requests
        client_ip = prunedEntries self client_ip current_time ∧
    (∀ other : String, other ≠ client_ip →
      lookupReqs (dispatch self true client_ip path current_time call_next).snd.requests
          other = lookupReqs self.requests other) ∧
    dispatch self true client_ip path current_time call_next =
      dispatch self true client_ip path current_time call_next2 := by
  have hd : ∀ cn : String, dispatch self true client_ip path current_time cn =
      (.rate_limited self.rate_limit self.window,
       { self with requests := storeReqs self.requests client_ip (prunedEntries self client_ip current_time) }) := by
    intro cn
    simp only [dispatch, Bool.not_true, hpath]
    rw [if_neg (by simp)]
    rw [if_neg (by simp)]
    split
    · rfl
    · rename_i hcond
      exact absurd hcnt hcond
  refine ⟨by rw [hd], ?_, ?_, by rw [hd, hd]⟩
  · rw [hd]
    exact lookupReqs_storeReqs_self self.requests client_ip
      (prunedEntries self client_ip current_time)
  · intro other hother
    rw [hd]
    exact lookupReqs_storeReqs_other self.requests client_ip other
      (prunedEntries self client_ip current_time) hother

/-- Witness for C10: the fixture rejection at instant 30 leaves the stored
sequence of client c at its pruned value, leaves the entry of client d
alone, and produces the same reply for two different wrapped handlers. -/
theorem rate_limit_reject_atomic_witness :
    (dispatch rlW true "c" "/api/v1/items" 30 "h").fst = .rate_limited 3 60 ∧
    lookupReqs (dispatch rlW true "c" "/api/v1/items" 30 "h").snd.requests "c" =
      prunedEntries rlW "c" 30 ∧
    lookupReqs (dispatch rlW true "c" "/api/v1/items" 30 "h").snd.requests "d" =
      lookupReqs rlW.requests "d" ∧
    dispatch rlW true "c" "/api/v1/items" 30 "h" =
      dispatch rlW true "c" "/api/v1/items" 30 "other-handler" := by
  have h := rate_limit_reject_atomic rlW "c" "/api/v1/items" 30 "h" "other-handler"
    (by decide) (by decide)
  exact ⟨h.1, h.2.1, h.2.2.1 "d" (by decide), h.2.2.2⟩

/-- The column names the User model of src/app/db/models/user.py declares,
in declaration order; the model maps no oauth_provider or oauth_id column,
the very names the OAuth code paths of user_crud.py reference. -/
def user_model_columns : List String :=
  ["id", "username", "email", "hashed_password", "first_name", "last_name",
   "phone_number", "phone_verified", "avatar_url", "bio",
   "timezone", "language",
   "is_active", "role", "two_fa_enabled", "email_verified",
   "last_login_at", "created_at", "updated_at"]

/-- The Python exceptions the OAuth code paths raise against the declared
model: an attribute access on a name the mapped class does not define, and
a constructor call with a keyword the declarative model does not accept. -/
inductive PyError where
  | attributeError (name : String)
  | typeError (msg : String)
deriving DecidableEq, Repr

/-- src/app/db/utils/user_crud.py get_by_oauth: the query is built as
select(User).where(User.oauth_provider == ..., User.oauth_id == ...); the
declared model maps no oauth_provider or oauth_id column, so the class
attribute access raises AttributeError while the query is being built,
before any row is read. -/
def get_by_oauth (db : List User) (oauth_provider : String) (oauth_id : String) :
    Except PyError (Option User) :=
  if user_model_columns.contains "oauth_provider" &&
      user_model_columns.contains "oauth_id" then
    -- unreachable against the declared model; with no mapped pair, no
    -- stored row could satisfy the filter anyway
    .ok none
  else
    .error (.attributeError "oauth_provider")

/-- Python truthiness of an optional string column: None and the empty
string are falsy. -/
def strFalsy : Option String → Bool
  | none => true
  | some s => s == ""

/-- The username uniquification step of create_oauth_user (user_crud.py
lines 166-171), which executes before the constructor call: when the
desired username is taken, append the 4-digit suffix drawn from
random.randint(1000, 9999) — the draw of the source is passed in here as
the rand argument. -/
def oauth_username (db : List User) (username : String) (rand : Nat) : String :=
  match get_by_username db username with
  | some _ => username ++ toString rand
  | none => username

/-- The keyword names the User(...) constructor call of create_oauth_user
passes (user_crud.py lines 173-184). -/
def create_oauth_user_kwargs : List String :=
  ["username", "email", "hashed_password", "first_name", "last_name",
   "avatar_url", "oauth_provider", "oauth_id", "email_verified", "role"]

/-- The hashed_password value that constructor call passes (user_crud.py
line 176): None, because OAuth users have no password. -/
def oauth_user_password_hash : Option String := none

/-- src/app/db/utils/user_crud.py create_oauth_user: uniquify the username
(this step executes), then call User(...) with the keyword set above. The
declarative constructor accepts only mapped attribute names, and
oauth_provider and oauth_id are not among the declared columns, so the
construction raises TypeError and nothing is inserted, the store coming
back unchanged; were the keywords accepted, the row would carry the null
password hash that the NOT NULL column rejects at flush. -/
def create_oauth_user (db : List User) (next_id : Nat) (rand : Nat)
    (email username oauth_provider oauth_id : String)
    (first_name last_name avatar_url : Option String)
    (email_verified : Bool) : Except PyError User × List User :=
  let uname := oauth_username db username rand
  if create_oauth_user_kwargs.all (fun k => user_model_columns.contains k) then
    -- unreachable against the declared model
    let db_obj : User :=
      { id := next_id, username := uname, email := email,
        hashed_password := oauth_user_password_hash,
        first_name := first_name, last_name := last_name, avatar_url := avatar_url,
        is_active := true, role := UserRole.USER,
        two_fa_enabled := false, email_verified := email_verified,
        last_login_at := none }
    (.ok db_obj, db ++ [db_obj])
  else
    (.error (.typeError "invalid keyword argument for User"), db)

/-- src/app/db/utils/user_crud.py get_or_create_oauth_user: the first step
is the external-identity lookup, which raises against the declared model,
the raise propagating with the store unchanged. Were it to return, an
exact match would come back unchanged with created false; an email match
would receive the backfills (the pair assignments on the instance set
names no column maps, so only the avatar and email-verified backfills are
column writes) with created false; and only with neither match would the
creation run, itself failing as above. -/
def get_or_create_oauth_user (db : List User) (next_id : Nat) (rand : Nat)
    (email username oauth_provider oauth_id : String)
    (first_name last_name avatar_url : Option String)
    (email_verified : Bool) : Except PyError (User × Bool) × List User :=
  match get_by_oauth db oauth_provider oauth_id with
  | .error e => (.error e, db)
  | .ok (some user) => (.ok (user, false), db)
  | .ok none =>
    match get_by_email db email with
    | some user =>
      let u2 := if strFalsy user.avatar_url && !(strFalsy avatar_url) then
          { user with avatar_url := avatar_url }
        else user
      let u3 := if !(u2.email_verified) then { u2 with email_verified := email_verified }
        else u2
      (.ok (u3, false), db_update db u3)
    | none =>
      match create_oauth_user db next_id rand email username oauth_provider
        oauth_id first_name last_name avatar_url email_verified with
      | (.error e, db2) => (.error e, db2)
      | (.ok u, db2) => (.ok (u, true), db2)

/-- src/app/db/models/user.py line 20: hashed_password is declared
Column(String(255), nullable=False) — the password column of the users
table is NOT NULL. -/
def hashed_password_nullable : Bool := false

/-- C5 (defect): user_crud.py spells out the claimed first-match-wins
resolution order, but its first step builds a query over
User.oauth_provider and User.oauth_id, names the declared model of user.py
maps no columns for, so every resolution call raises AttributeError at the
external-identity lookup: no existing principal is ever returned, no email
match is ever linked, no principal is ever created, and the store comes
back unchanged. -/
theorem oauth_resolution_raises_attribute_error :
    (user_model_columns.contains "oauth_provider" = false) ∧
    (user_model_columns.contains "oauth_id" = false) ∧
    (get_by_oauth [uAlice] "google" "g-9" = .error (.attributeError "oauth_provider")) ∧
    (get_or_create_oauth_user [uAlice] 8 1234 "alice@example.com" "alice" "google"
        "g-9" none none (some "http://a/a.png") true =
      (.error (.attributeError "oauth_provider"), [uAlice])) ∧
    (get_or_create_oauth_user [] 1 1234 "new@example.com" "new" "google" "g-1"
        none none none true =
      (.error (.attributeError "oauth_provider"), [])) := by
  exact ⟨rfl, rfl, rfl, rfl, rfl⟩

/-- C6 (defect): neither call of the idempotence experiment returns: the
first resolve raises AttributeError at the external-identity lookup and
leaves the store unchanged, and the identical second call on that store
raises the same error, so no principal id and no created flag is ever
produced by either call. -/
theorem oauth_resolution_never_returns :
    ((get_or_create_oauth_user [] 1 1000 "ada@example.com" "ada" "github" "g-77"
        none none none true).fst = .error (.attributeError "oauth_provider")) ∧
    ((get_or_create_oauth_user [] 1 1000 "ada@example.com" "ada" "github" "g-77"
        none none none true).snd = []) ∧
    ((get_or_create_oauth_user
        (get_or_create_oauth_user [] 1 1000 "ada@example.com" "ada" "github" "g-77"
          none none none true).snd
        2 2000 "ada@example.com" "ada" "github" "g-77" none none none true).fst =
      .error (.attributeError "oauth_provider")) := by
  exact ⟨rfl, rfl, rfl⟩

/-- C7 (defect): the creation path aims at a principal with role USER, a
null password hash and the supplied profile fields, but it is broken twice
over: the User(...) construction passes the oauth_provider and oauth_id
keywords, which the declared model maps no columns for, so the call raises
TypeError and nothing is stored; and independently the hashed_password
value it passes is None while the column is declared NOT NULL, so even an
accepted row would be rejected at flush — the stored record does not admit
the null hash. The uniquification of a colliding username, the one step
that does execute, is drawn from random.randint rather than derived
deterministically from the desired username: two draws produce two
different usernames. -/
theorem oauth_create_violates_declared_schema :
    (create_oauth_user_kwargs.all (fun k => user_model_columns.contains k) = false) ∧
    ((create_oauth_user [] 1 1234 "alice@example.com" "alice" "google" "g-123"
        none none none true).fst =
      .error (.typeError "invalid keyword argument for User")) ∧
    ((create_oauth_user [] 1 1234 "alice@example.com" "alice" "google" "g-123"
        none none none true).snd = []) ∧
    (oauth_user_password_hash = none) ∧
    (hashed_password_nullable = false) ∧
    ((oauth_user_password_hash.isSome || hashed_password_nullable) = false) ∧
    (oauth_username [uAlice] "alice" 1000 ≠ oauth_username [uAlice] "alice" 2000) := by
  exact ⟨rfl, rfl, rfl, rfl, rfl, rfl, by decide⟩

/-- src/app/api/routers/auth.py enable_2fa, state-passing on the stored
rows: refuse when already enabled, refuse when the email is unverified,
otherwise set the flag and persist; the confirmation email goes through the
external notifier and carries no state. -/
def enable_2fa (db : List User) (current_user : User) :
    Except HTTPException User × List User :=
  if current_user.two_fa_enabled then
    (.error { status_code := 400, detail := "2FA is already enabled" }, db)
  else if !(current_user.email_verified) then
    (.error { status_code := 400,
              detail := "Please verify your email before enabling 2FA" }, db)
  else
    let u := { current_user with two_fa_enabled := true }
    (.ok u, db_update db u)

/-- src/app/api/routers/auth.py disable_2fa: refuse when not enabled,
refuse on a wrong password confirmation, otherwise clear the flag and
persist (a null stored hash cannot verify; no such row exists under the
NOT NULL column). -/
def disable_2fa (db : List User) (password : String) (current_user : User) :
    Except HTTPException User × List User :=
  if !(current_user.two_fa_enabled) then
    (.error { status_code := 400, detail := "2FA is not enabled" }, db)
  else if !(match current_user.hashed_password with
            | some h => verify_password password h
            | none => false) then
    (.error { status_code := 401, detail := "Incorrect password" }, db)
  else
    let u := { current_user with two_fa_enabled := false }
    (.ok u, db_update db u)

/-- The two-factor invariant of the data model: a record with two-factor
enabled has a verified email. -/
def twoFAInvariant (u : User) : Bool :=
  !u.two_fa_enabled || u.email_verified

/-- The store-wide two-factor invariant. -/
def storeInvariant (db : List User) : Prop :=
  ∀ u ∈ db, twoFAInvariant u = true

instance storeInvariant_decidable (db : List User) : Decidable (storeInvariant db) :=
  inferInstanceAs (Decidable (∀ u ∈ db, twoFAInvariant u = true))

/-- Rewriting one row preserves the store invariant when the new row
satisfies it. -/
theorem storeInvariant_db_update (db : List User) (u : User)
    (hdb : storeInvariant db) (hu : twoFAInvariant u = true) :
    storeInvariant (db_update db u) := by
  intro x hx
  rcases List.mem_map.mp hx with ⟨y, hy, hfy⟩
  by_cases h : (y.id == u.id) = true
  · rw [← hfy]
    simpa [h] using hu
  · rw [← hfy]
    simpa [h] using hdb y hy

/-- A principal returned by authenticate is a stored row. -/
theorem authenticate_mem (db : List User) (username_or_email password : String)
    (u : User) (h : authenticate db username_or_email password = some u) : u ∈ db := by
  unfold authenticate at h
  cases h1 : get_by_username db username_or_email with
  | some v =>
    simp only [h1] at h
    cases hv : v.hashed_password with
    | none => simp [hv] at h
    | some hp =>
      simp only [hv] at h
      split at h
      · cases h
        unfold get_by_username at h1
        exact List.mem_of_find?_eq_some h1
      · cases h
  | none =>
    simp only [h1] at h
    cases h2 : get_by_email db username_or_email with
    | some v =>
      simp only [h2] at h
      cases hv : v.hashed_password with
      | none => simp [hv] at h
      | some hp =>
        simp only [hv] at h
        split at h
        · cases h
          unfold get_by_email at h2
          exact List.mem_of_find?_eq_some h2
        · cases h
    | none =>
      simp only [h2] at h
      cases h

/-- Fixture: a principal with two-factor already enabled (and, as the
invariant demands, a verified email). -/
def uTwoFA : User :=
  { id := 11, username := "tina", email := "tina@example.com",
    hashed_password := some (hash_password "tinapw"),
    first_name := none, last_name := none, avatar_url := none,
    is_active := true, role := UserRole.USER,
    two_fa_enabled := true, email_verified := true,
    last_login_at := none }

/-- Fixture: a principal with an unverified email and two-factor off. -/
def uNoVerify : User :=
  { id := 12, username := "nina", email := "nina@example.com",
    hashed_password := some (hash_password "ninapw"),
    first_name := none, last_name := none, avatar_url := none,
    is_active := true, role := UserRole.USER,
    two_fa_enabled := false, email_verified := false,
    last_login_at := none }

/-- C8: enabling two-factor fails with the already-enabled outcome when the
flag is set, and with the verify-your-email outcome when the email is
unverified, changing no state in either case; a successful enable produces
a row with both flags set, so the invariant that two-factor enabled implies
email verified is established before enabling and preserved — by enable,
by disable, by OAuth resolution and by login. -/
theorem enable_two_factor_guard (db : List User) (current_user : User)
    (password username_or_email secret : String) (now n r : Nat)
    (email username oauth_provider oauth_id : String)
    (first_name last_name avatar_url : Option String) (email_verified : Bool) :
    (current_user.two_fa_enabled = true →
      enable_2fa db current_user =
        (.error { status_code := 400, detail := "2FA is already enabled" }, db)) ∧
    (current_user.two_fa_enabled = false → current_user.email_verified = false →
      enable_2fa db current_user =
        (.error { status_code := 400,
                  detail := "Please verify your email before enabling 2FA" }, db)) ∧
    (∀ u : User, (enable_2fa db current_user).fst = .ok u →
      u.two_fa_enabled = true ∧ u.email_verified = true) ∧
    (storeInvariant db → storeInvariant (enable_2fa db current_user).snd) ∧
    (storeInvariant db → storeInvariant (disable_2fa db password current_user).snd) ∧
    (storeInvariant db →
      storeInvariant (get_or_create_oauth_user db n r email username oauth_provider
        oauth_id first_name last_name avatar_url email_verified).snd) ∧
    (storeInvariant db →
      storeInvariant (login secret db username_or_email password now).snd) := by
  refine ⟨?_, ?_, ?_, ?_, ?_, ?_, ?_⟩
  · intro h
    simp [enable_2fa, h]
  · intro h1 h2
    simp [enable_2fa, h1, h2]
  · intro u h
    unfold enable_2fa at h
    split at h
    · cases h
    · split at h
      · cases h
      · rename_i hfa hev
        cases h
        exact ⟨rfl, by simpa using hev⟩
  · intro hinv
    unfold enable_2fa
    split
    · exact hinv
    · split
      · exact hinv
      · rename_i hfa hev
        apply storeInvariant_db_update db _ hinv
        simp [twoFAInvariant]
        simpa using hev
  · intro hinv
    unfold disable_2fa
    split
    · exact hinv
    · split
      · exact hinv
      · apply storeInvariant_db_update db _ hinv
        simp [twoFAInvariant]
  · intro hinv
    have hb : get_by_oauth db oauth_provider oauth_id =
        .error (.attributeError "oauth_provider") := rfl
    simpa [get_or_create_oauth_user, hb] using hinv
  · intro hinv
    unfold login
    split
    · exact hinv
    · rename_i user ha
      split
      · exact hinv
      · split
        · exact hinv
        · have huser : user ∈ db := authenticate_mem db username_or_email password user ha
          have hu := hinv user huser
          apply storeInvariant_db_update db _ hinv
          simpa [twoFAInvariant] using hu

/-- Witness for C8: enabling on uTwoFA reports already enabled and on
uNoVerify demands email verification, both leaving the one-row store
unchanged; and the concrete invariant-holding stores stay invariant under
a successful enable, a disable, an OAuth resolution and a login. -/
theorem enable_two_factor_guard_witness :
    (enable_2fa [uTwoFA] uTwoFA =
      (.error { status_code := 400, detail := "2FA is already enabled" }, [uTwoFA])) ∧
    (enable_2fa [uNoVerify] uNoVerify =
      (.error { status_code := 400,
                detail := "Please verify your email before enabling 2FA" }, [uNoVerify])) ∧
    storeInvariant (enable_2fa [uAlice] uAlice).snd ∧
    storeInvariant (disable_2fa [uTwoFA] "tinapw" uTwoFA).snd ∧
    storeInvariant (get_or_create_oauth_user [uAlice] 9 1000 "alice@example.com"
      "alice" "google" "g-9" none none none true).snd ∧
    storeInvariant (login "k" [uAlice] "alice" "alicepw" 3).snd := by
  have h1 := enable_two_factor_guard [uTwoFA] uTwoFA "tinapw" "x" "k" 0 9 1000
    "e@x" "u" "google" "g" none none none true
  have h2 := enable_two_factor_guard [uNoVerify] uNoVerify "pw" "x" "k" 0 9 1000
    "e@x" "u" "google" "g" none none none true
  have h3 := enable_two_factor_guard [uAlice] uAlice "alicepw" "alice" "k" 3 9 1000
    "alice@example.com" "alice" "google" "g-9" none none none true
  exact ⟨h1.1 rfl, h2.2.1 rfl rfl, h3.2.2.2.1 (by decide), h1.2.2.2.2.1 (by decide),
    h3.2.2.2.2.2.1 (by decide), h3.2.2.2.2.2.2 (by decide)⟩

end FastapiTemplate
